import Mathlib

/-!
Verification of the FilterGPU image-filtering pipeline
(`src/include/jevoisbase/Components/FilterGPU/FilterGPU.H`).

The repository sources contain the class header: its public interface
(`setProgram`, the four `setProgramParam*` overloads, `process`), its private
state (`itsVshader`, `itsFshader`, `itsProgramChanged`, `itsProgramParams`,
the EGL/GL handles, `itsMutex`) and the documentation comments.  The method
bodies live in a `.C` translation unit that is not part of the sources, so the
operational behavior of each method is modelled from the specification
(`spec.md`), as flagged on each definition below.
-/

namespace FilterGPU

/-- Parameter type tags, from the header: `enum paramtype { F2, I2, F1, I1 };`
(two floats, two ints, one float, one int). -/
inductive paramtype
  | F2
  | I2
  | F1
  | I1
deriving DecidableEq, Repr

/-- A stored program parameter, from the header:
`struct param { paramtype type; float val[2]; };`.
The two `float` payload slots are modelled as exact rational numbers (every
value of a 32-bit IEEE float is a dyadic rational, so this embedding is
lossless); integer arguments are converted through `floatRound` below, as the
`float val[2]` payload forces in the C++ code. -/
structure param where
  type : paramtype
  val1 : ℚ
  val2 : ℚ
deriving DecidableEq, Repr

/-- Binary exponent used by the float32 representation of a natural number
`a > 2 ^ 24`: the number of halvings needed to bring `a` below `2 ^ 24`
(so that `a / 2 ^ e` is a 24-bit significand).  The fuel argument is
instantiated at 32, the bit width of the C++ `int` being stored. -/
def f32exp : Nat → Nat → Nat
  | 0, _ => 0
  | fuel + 1, a => if a < 2 ^ 24 then 0 else f32exp fuel (a / 2) + 1

/-- Rounding of a (32-bit) integer to the nearest value exactly representable
in IEEE-754 binary32 (round to nearest, ties to even).  Integers of magnitude
at most `2 ^ 24` are exactly representable and returned unchanged; larger ones
are rounded to a multiple of `2 ^ e` keeping a 24-bit significand.  This models
what happens when `setProgramParam2i` / `setProgramParam1i` store their `int`
arguments into the `float val[2]` payload of `struct param`. -/
def floatRound (v : Int) : Int :=
  let a := v.natAbs
  if a ≤ 2 ^ 24 then v
  else
    let e := f32exp 32 a
    let q := a / 2 ^ e
    let r := a % 2 ^ e
    let h := 2 ^ (e - 1)
    let q2 := if h < r ∨ (r = h ∧ q % 2 = 1) then q + 1 else q
    if v < 0 then -(q2 * 2 ^ e : Nat) else (q2 * 2 ^ e : Nat)

/-- Lookup by key in the ordered associative container modelling the header's
`std::map<std::string, param> itsProgramParams`. -/
def mapFind (k : String) : List (String × param) → Option param
  | [] => none
  | (k1, v1) :: t => if k = k1 then some v1 else mapFind k t

/-- Insert-or-assign into the ordered associative container modelling
`std::map<std::string, param>`: entries are kept strictly sorted by key
(`std::map` key order), and writing an existing key overwrites its value. -/
def mapInsert (k : String) (v : param) : List (String × param) → List (String × param)
  | [] => [(k, v)]
  | (k1, v1) :: t =>
    if k < k1 then (k, v) :: (k1, v1) :: t
    else if k = k1 then (k, v) :: t
    else (k1, v1) :: mapInsert k v t

/-- The `std::map` representation invariant: entries strictly sorted by key. -/
def StoreSorted (l : List (String × param)) : Prop :=
  List.Pairwise (fun a b : String × param => a.1 < b.1) l

/-- Output render-target encodings, from the header documentation: CV_8UC2
RGB565 images, or CV_8UC4 RGBA images. -/
inductive RenderType
  | RGB565
  | RGBA
deriving DecidableEq, Repr

/-- Source texture formats, from the header documentation: CV_8UC1 greyscale
uploaded as a luminance texture, or CV_8UC4 uploaded as RGBA. -/
inductive TexFormat
  | Luminance
  | RGBA
deriving DecidableEq, Repr

/-- A CPU-resident image (`cv::Mat`): dimensions, channel count, pixel bytes. -/
structure Mat where
  rows : Nat
  cols : Nat
  channels : Nat
  data : List Nat
deriving DecidableEq, Repr

/-- Output encoding of a destination image, by channel count: 2 bytes/pixel is
RGB565, 4 is RGBA; anything else is unsupported. -/
def dstTypeOf (m : Mat) : Option RenderType :=
  if m.channels = 2 then some RenderType.RGB565
  else if m.channels = 4 then some RenderType.RGBA
  else none

/-- Texture format of a source image, by channel count: 1 channel is a
luminance texture (in the shaders R=G=B and alpha=1), 4 channels is RGBA;
anything else is unsupported. -/
def srcFormatOf (m : Mat) : Option TexFormat :=
  if m.channels = 1 then some TexFormat.Luminance
  else if m.channels = 4 then some TexFormat.RGBA
  else none

/-- The GPU driver, abstracted: uniform-location lookup in a linked program
(`none` models `glGetUniformLocation` returning an invalid location for a name
absent from the program's declared uniforms), compile/link success, and the
rendering of a full-screen quad followed by pixel read-back.  The pipeline
definitions below are parametrized over this record, since shader source text
is opaque to the pipeline. -/
structure Driver where
  uniformLoc : String → String → String → Option Nat
  compileOk : String → String → Bool
  render : String → String → List (String × param) → Mat → Nat → Nat → RenderType → List Nat

/-- The private state of a `FilterGPU` instance, from the header's member list;
`compileCount` and `initCount` are ghost counters recording how many shader
compile/link operations and how many display/context/render-target
initializations have been performed. -/
structure FilterState where
  itsVshader : String
  itsFshader : String
  itsProgramChanged : Bool
  itsProgramParams : List (String × param)
  itsProgram : Option (String × String)
  itsSrcTex : Option (Nat × Nat × TexFormat)
  displayInit : Bool
  itsRenderWidth : Nat
  itsRenderHeight : Nat
  itsRenderType : RenderType
  compileCount : Nat
  initCount : Nat
deriving DecidableEq, Repr

/-- Modelled from the spec: the constructor body is not in the sources; the
spec requires that no GPU-side entity (display, config, context, surface,
framebuffer, renderbuffer, texture, program) is created in the constructor —
all are created lazily inside the first rendering pass. -/
def initFilterState : FilterState :=
  ⟨"", "", false, [], none, none, false, 0, 0, RenderType.RGB565, 0, 0⟩

/-- Modelled from the spec: the body of `FilterGPU::setProgram` is not in the
sources.  Per the spec and the header comments, it stores the two shader
source strings, sets the dirty flag `itsProgramChanged`, clears all cached
parameters, and performs no GPU work (compilation is deferred to `process`). -/
def setProgram (s : FilterState) (vertex_shader frag_shader : String) : FilterState :=
  { s with itsVshader := vertex_shader, itsFshader := frag_shader,
           itsProgramChanged := true, itsProgramParams := [] }

/-- Modelled from the spec: the body of `FilterGPU::setProgramParam2f` is not
in the sources; it insert-or-overwrites the named entry of
`itsProgramParams` with tag `F2` and the two float values. -/
def setProgramParam2f (s : FilterState) (name : String) (val1 val2 : ℚ) : FilterState :=
  { s with itsProgramParams :=
      mapInsert name ⟨paramtype.F2, val1, val2⟩ s.itsProgramParams }

/-- Modelled from the spec: the body of `FilterGPU::setProgramParam1f` is not
in the sources; it insert-or-overwrites the named entry with tag `F1`. -/
def setProgramParam1f (s : FilterState) (name : String) (val : ℚ) : FilterState :=
  { s with itsProgramParams :=
      mapInsert name ⟨paramtype.F1, val, 0⟩ s.itsProgramParams }

/-- Modelled from the spec: the body of `FilterGPU::setProgramParam2i` is not
in the sources; it insert-or-overwrites the named entry with tag `I2`.  The
`int` arguments are stored into the `float val[2]` payload of `struct param`
(header, lines 127-128), hence round through `floatRound`. -/
def setProgramParam2i (s : FilterState) (name : String) (val1 val2 : Int) : FilterState :=
  { s with itsProgramParams :=
      mapInsert name ⟨paramtype.I2, (floatRound val1 : ℚ), (floatRound val2 : ℚ)⟩ s.itsProgramParams }

/-- Modelled from the spec: the body of `FilterGPU::setProgramParam1i` is not
in the sources; it insert-or-overwrites the named entry with tag `I1`, the
`int` argument being stored into the `float` payload. -/
def setProgramParam1i (s : FilterState) (name : String) (val : Int) : FilterState :=
  { s with itsProgramParams :=
      mapInsert name ⟨paramtype.I1, (floatRound val : ℚ), 0⟩ s.itsProgramParams }

/-- The four error kinds of the spec's error taxonomy. -/
inductive Err
  | InitializationFailure
  | CompileError
  | UnsupportedFormat
  | ContractViolation
deriving DecidableEq, Repr

/-- Result of one `process` call: the state after the call, the destination
image after the call (unchanged on every error path), the error surfaced to
the caller if any, and — as a ghost observation — the list of stored
parameters actually uploaded as uniforms during this pass. -/
structure ProcResult where
  state : FilterState
  dst : Mat
  err : Option Err
  applied : List (String × param)
deriving DecidableEq, Repr

/-- Whether a stored parameter entry resolves to a valid uniform location in
the program compiled from the given vertex/fragment sources; entries whose
name is absent from the program's declared uniforms do not apply (they are
silently skipped by `applyAll`). -/
def appliesTo (d : Driver) (vsh fsh : String) (kv : String × param) : Bool :=
  (d.uniformLoc vsh fsh kv.1).isSome

/-- Modelled from the spec: lazy initialization (`FilterGPU::initDisplay`,
whose body is not in the sources) of the display/config/context/surface and of
the framebuffer/renderbuffer render target, sized to the destination image. -/
def initDisplay (s : FilterState) (dst : Mat) (t : RenderType) : FilterState :=
  { s with displayInit := true, itsRenderWidth := dst.cols,
           itsRenderHeight := dst.rows, itsRenderType := t,
           initCount := s.initCount + 1 }

/-- Modelled from the spec: bind the (already compiled) program, apply the
parameter store, draw, read back.  A missing program means no successful
`setProgram`+compile has happened yet; the pipeline is non-functional and
this surfaces as `CompileError`. -/
def processDraw (d : Driver) (s : FilterState) (src dst : Mat) : ProcResult :=
  match s.itsProgram with
  | none => ⟨s, dst, some Err.CompileError, []⟩
  | some (vsh, fsh) =>
    let app := s.itsProgramParams.filter (appliesTo d vsh fsh)
    let out := d.render vsh fsh app src s.itsRenderWidth s.itsRenderHeight s.itsRenderType
    ⟨s, { dst with data := out }, none, app⟩

/-- Modelled from the spec: the rendering part of `FilterGPU::process`
(steps 3-7 of the spec's §4.5), run once the context and render target exist:
upload `src` into the source texture (format inferred from the channel count,
`UnsupportedFormat` otherwise); if the program is dirty, compile/link it
(surfacing `CompileError` on failure and leaving the pipeline non-functional);
bind the program, apply every stored parameter whose name resolves to a
uniform location, draw the full-screen quad and read the pixels back into the
destination buffer. -/
def processRender (d : Driver) (s : FilterState) (src dst : Mat) : ProcResult :=
  match srcFormatOf src with
  | none => ⟨s, dst, some Err.UnsupportedFormat, []⟩
  | some fmt =>
    let s2 := { s with itsSrcTex := some (src.cols, src.rows, fmt) }
    if s2.itsProgramChanged then
      if d.compileOk s2.itsVshader s2.itsFshader then
        let s3 := { s2 with itsProgram := some (s2.itsVshader, s2.itsFshader),
                            itsProgramChanged := false,
                            compileCount := s2.compileCount + 1 }
        processDraw d s3 src dst
      else
        ⟨{ s2 with compileCount := s2.compileCount + 1 }, dst, some Err.CompileError, []⟩
    else
      processDraw d s2 src dst

/-- Modelled from the spec: the body of `FilterGPU::process` is not in the
sources.  Per §4.5 of the spec: on the first call, lazily initialize the
display/context and the render target, sized to the destination image's
dimensions and encoding (`UnsupportedFormat` if the destination encoding is
neither RGB565 nor RGBA); on subsequent calls, a destination whose size or
encoding does not match the configured render target is a `ContractViolation`,
surfaced before anything is written to `dst`; then run the rendering pass. -/
def process (d : Driver) (s : FilterState) (src dst : Mat) : ProcResult :=
  if s.displayInit then
    if dst.cols = s.itsRenderWidth ∧ dst.rows = s.itsRenderHeight ∧
       dstTypeOf dst = some s.itsRenderType then
      processRender d s src dst
    else
      ⟨s, dst, some Err.ContractViolation, []⟩
  else
    match dstTypeOf dst with
    | none => ⟨s, dst, some Err.UnsupportedFormat, []⟩
    | some t => processRender d (initDisplay s dst t) src dst

/-- State after a sequence of `process` calls (each on its own input pair). -/
def runSeq (d : Driver) : FilterState → List (Mat × Mat) → FilterState
  | s, [] => s
  | s, (src, dst) :: rest => runSeq d (process d s src dst).state rest

/-- Whether every `process` call in the sequence completes without error. -/
def seqOk (d : Driver) : FilterState → List (Mat × Mat) → Bool
  | _, [] => true
  | s, (src, dst) :: rest =>
    (process d s src dst).err.isNone && seqOk d (process d s src dst).state rest

/-- The pixel bytes read back from the GPU after one draw with the program
compiled from the given sources and the applied subset of the parameter
store (an abbreviation used to state `processDraw_result`). -/
def drawOutput (d : Driver) (s : FilterState) (src : Mat) (vsh fsh : String) : List Nat :=
  d.render vsh fsh (s.itsProgramParams.filter (appliesTo d vsh fsh)) src s.itsRenderWidth s.itsRenderHeight s.itsRenderType

/-- A concrete driver instance used to evaluate the pipeline model on closed
inputs: no uniform name resolves to a location, every compile/link succeeds,
and a draw produces two zero bytes per render-target pixel. -/
def testDriver : Driver :=
  ⟨fun _ _ _ => none, fun _ _ => true, fun _ _ _ _ w h _ => List.replicate (w * h * 2) 0⟩

/-- A concrete 1x1 single-channel (luminance) source image. -/
def srcGrey : Mat := ⟨1, 1, 1, [128]⟩

/-- A concrete 1x1 two-channel (RGB565) destination image. -/
def dst565 : Mat := ⟨1, 1, 2, [7, 7]⟩

/-- The constructor state after staging a shader pair. -/
def dirtyState : FilterState := setProgram initFilterState "v" "f"

/-- The state after one successful `process` call from `dirtyState`: display
initialized, render target configured at 1x1 RGB565, program compiled. -/
def readyState : FilterState := (process testDriver dirtyState srcGrey dst565).state


theorem mapFind_mem {k : String} {v : param} :
    ∀ {l : List (String × param)}, mapFind k l = some v → (k, v) ∈ l := by
  intro l
  induction l with
  | nil => intro h; simp [mapFind] at h
  | cons hd t ih =>
    intro h
    obtain ⟨k1, v1⟩ := hd
    by_cases hk : k = k1
    · subst hk
      simp [mapFind] at h
      subst h
      exact List.mem_cons_self _ _
    · simp [mapFind, hk] at h
      exact List.mem_cons_of_mem _ (ih h)

theorem mem_mapInsert {k : String} {v : param} {x : String × param} :
    ∀ {l : List (String × param)}, x ∈ mapInsert k v l → x = (k, v) ∨ x ∈ l := by
  intro l
  induction l with
  | nil => intro h; simp [mapInsert] at h; exact Or.inl h
  | cons hd t ih =>
    intro h
    obtain ⟨k1, v1⟩ := hd
    by_cases hlt : k < k1
    · simp [mapInsert, hlt] at h
      rcases h with h | h | h
      · exact Or.inl (by simp [h])
      · exact Or.inr (by simp [h])
      · exact Or.inr (List.mem_cons_of_mem _ h)
    · by_cases heq : k = k1
      · simp [mapInsert, hlt, heq] at h
        rcases h with h | h
        · exact Or.inl (by simp [h, heq])
        · exact Or.inr (List.mem_cons_of_mem _ h)
      · simp [mapInsert, hlt, heq] at h
        rcases h with h | h
        · exact Or.inr (by simp [h])
        · rcases ih h with h' | h'
          · exact Or.inl h'
          · exact Or.inr (List.mem_cons_of_mem _ h')

theorem mapFind_mapInsert (k k1 : String) (v : param) :
    ∀ l : List (String × param),
      mapFind k (mapInsert k1 v l) = if k = k1 then some v else mapFind k l := by
  intro l
  induction l with
  | nil => by_cases h : k = k1 <;> simp [mapInsert, mapFind, h]
  | cons hd t ih =>
    obtain ⟨k2, v2⟩ := hd
    by_cases hlt : k1 < k2
    · by_cases h : k = k1 <;> simp [mapInsert, mapFind, hlt, h]
    · by_cases heq : k1 = k2
      · subst heq
        by_cases h : k = k1 <;> simp [mapInsert, mapFind, hlt, h]
      · by_cases h : k = k2
        · subst h
          have hne : ¬ k = k1 := fun hc => heq hc.symm
          simp [mapInsert, mapFind, hlt, heq, hne]
        · simp [mapInsert, mapFind, hlt, heq, h, ih]

theorem storeSorted_mapInsert (k : String) (v : param) :
    ∀ l : List (String × param), StoreSorted l → StoreSorted (mapInsert k v l) := by
  intro l
  induction l with
  | nil => intro _; simp [mapInsert, StoreSorted]
  | cons hd t ih =>
    intro hs
    obtain ⟨k2, v2⟩ := hd
    rw [StoreSorted, List.pairwise_cons] at hs
    obtain ⟨hall, htail⟩ := hs
    by_cases hlt : k < k2
    · rw [StoreSorted]
      simp only [mapInsert, if_pos hlt]
      refine List.Pairwise.cons ?_ (List.Pairwise.cons hall htail)
      intro x hx
      rcases List.mem_cons.mp hx with h | h
      · rw [h]; exact hlt
      · exact lt_trans hlt (hall x h)
    · by_cases heq : k = k2
      · rw [StoreSorted]
        simp only [mapInsert, if_neg hlt, if_pos heq]
        refine List.Pairwise.cons ?_ htail
        intro x hx
        rw [heq]; exact hall x hx
      · rw [StoreSorted]
        simp only [mapInsert, if_neg hlt, if_neg heq]
        refine List.Pairwise.cons ?_ (ih htail)
        intro x hx
        rcases mem_mapInsert hx with h | h
        · subst h
          rcases lt_trichotomy k k2 with h' | h' | h'
          · exact absurd h' hlt
          · exact absurd h' heq
          · exact h'
        · exact hall x h

theorem mapFind_eq_none_of_forall_lt {k : String} :
    ∀ {l : List (String × param)}, (∀ x ∈ l, k < x.1) → mapFind k l = none := by
  intro l
  induction l with
  | nil => intro _; rfl
  | cons hd t ih =>
    intro hall
    obtain ⟨k1, v1⟩ := hd
    have h1 : k < k1 := hall (k1, v1) (List.mem_cons_self _ _)
    have hne : ¬ k = k1 := ne_of_lt h1
    simp only [mapFind, if_neg hne]
    exact ih fun x hx => hall x (List.mem_cons_of_mem _ hx)

theorem storeSorted_ext :
    ∀ (l1 l2 : List (String × param)), StoreSorted l1 → StoreSorted l2 →
      (∀ k, mapFind k l1 = mapFind k l2) → l1 = l2 := by
  intro l1
  induction l1 with
  | nil =>
    intro l2 _ hs2 hfind
    cases l2 with
    | nil => rfl
    | cons hd t =>
      obtain ⟨k2, v2⟩ := hd
      have := hfind k2
      simp [mapFind] at this
  | cons hd1 t1 ih =>
    intro l2 hs1 hs2 hfind
    obtain ⟨k1, v1⟩ := hd1
    cases l2 with
    | nil =>
      have := hfind k1
      simp [mapFind] at this
    | cons hd2 t2 =>
      obtain ⟨k2, v2⟩ := hd2
      rw [StoreSorted, List.pairwise_cons] at hs1 hs2
      obtain ⟨hall1, htail1⟩ := hs1
      obtain ⟨hall2, htail2⟩ := hs2
      have hkeys : k1 = k2 := by
        rcases lt_trichotomy k1 k2 with h | h | h
        · exfalso
          have hf := hfind k1
          simp [mapFind] at hf
          have hnone : mapFind k1 t2 = none :=
            mapFind_eq_none_of_forall_lt fun x hx => lt_trans h (hall2 x hx)
          rw [if_neg (ne_of_lt h), hnone] at hf
          simp at hf
        · exact h
        · exfalso
          have hf := hfind k2
          simp [mapFind] at hf
          have hnone : mapFind k2 t1 = none :=
            mapFind_eq_none_of_forall_lt fun x hx => lt_trans h (hall1 x hx)
          rw [if_neg (ne_of_lt h), hnone] at hf
          simp at hf
      subst hkeys
      have hvals : v1 = v2 := by
        have hf := hfind k1
        simp [mapFind] at hf
        exact hf
      subst hvals
      have htfind : ∀ k, mapFind k t1 = mapFind k t2 := by
        intro k
        by_cases hk : k = k1
        · subst hk
          rw [mapFind_eq_none_of_forall_lt fun x hx => hall1 x hx,
             mapFind_eq_none_of_forall_lt fun x hx => hall2 x hx]
        · have hf := hfind k
          simpa [mapFind, if_neg hk] using hf
      rw [ih t2 htail1 htail2 htfind]

theorem mapInsert_comm {k1 k2 : String} (v1 v2 : param)
    (l : List (String × param)) (hs : StoreSorted l) (hne : k1 ≠ k2) :
    mapInsert k1 v1 (mapInsert k2 v2 l) = mapInsert k2 v2 (mapInsert k1 v1 l) := by
  apply storeSorted_ext
  · exact storeSorted_mapInsert _ _ _ (storeSorted_mapInsert _ _ _ hs)
  · exact storeSorted_mapInsert _ _ _ (storeSorted_mapInsert _ _ _ hs)
  · intro k
    rw [mapFind_mapInsert, mapFind_mapInsert, mapFind_mapInsert, mapFind_mapInsert]
    by_cases h1 : k = k1
    · subst h1
      simp [hne]
    · by_cases h2 : k = k2
      · simp only [if_neg h1, if_pos h2]
      · simp only [if_neg h1, if_neg h2]

theorem processDraw_state (d : Driver) (s : FilterState) (src dst : Mat) :
    (processDraw d s src dst).state = s := by
  rw [processDraw]
  rcases s.itsProgram with _ | ⟨vsh, fsh⟩
  · rfl
  · rfl

theorem processRender_state_eq (d : Driver) (s : FilterState) (src dst : Mat) :
    (processRender d s src dst).state =
      (match srcFormatOf src with
       | none => s
       | some fmt =>
         let s2 : FilterState := { s with itsSrcTex := some (src.cols, src.rows, fmt) }
         if s2.itsProgramChanged then
           if d.compileOk s2.itsVshader s2.itsFshader then
             { s2 with itsProgram := some (s2.itsVshader, s2.itsFshader),
                       itsProgramChanged := false, compileCount := s2.compileCount + 1 }
           else { s2 with compileCount := s2.compileCount + 1 }
         else s2) := by
  rw [processRender]
  rcases srcFormatOf src with _ | fmt
  · rfl
  · dsimp only
    split
    · split
      · rw [processDraw_state]
      · rfl
    · rw [processDraw_state]

theorem processRender_preserved (d : Driver) (s : FilterState) (src dst : Mat) :
    (processRender d s src dst).state.itsProgramParams = s.itsProgramParams ∧
    (processRender d s src dst).state.displayInit = s.displayInit ∧
    (processRender d s src dst).state.initCount = s.initCount ∧
    (processRender d s src dst).state.itsRenderWidth = s.itsRenderWidth ∧
    (processRender d s src dst).state.itsRenderHeight = s.itsRenderHeight ∧
    (processRender d s src dst).state.itsRenderType = s.itsRenderType := by
  rw [processRender_state_eq]
  rcases srcFormatOf src with _ | fmt
  · exact ⟨rfl, rfl, rfl, rfl, rfl, rfl⟩
  · dsimp only
    split_ifs <;> exact ⟨rfl, rfl, rfl, rfl, rfl, rfl⟩

theorem processRender_not_dirty (d : Driver) (s : FilterState) (src dst : Mat)
    (h : s.itsProgramChanged = false) :
    (processRender d s src dst).state.compileCount = s.compileCount ∧
    (processRender d s src dst).state.itsProgramChanged = false := by
  rw [processRender_state_eq]
  rcases srcFormatOf src with _ | fmt
  · exact ⟨rfl, h⟩
  · dsimp only
    rw [if_neg (by simp [h])]
    exact ⟨rfl, h⟩

theorem processRender_err_none (d : Driver) (s : FilterState) (src dst : Mat)
    (hok : (processRender d s src dst).err = none) :
    ∃ fmt, srcFormatOf src = some fmt := by
  rcases hf : srcFormatOf src with _ | fmt
  · rw [processRender, hf] at hok
    exact absurd hok (by simp)
  · exact ⟨fmt, rfl⟩

theorem processRender_dirty_ok (d : Driver) (s : FilterState) (src dst : Mat)
    (h : s.itsProgramChanged = true)
    (hok : (processRender d s src dst).err = none) :
    (processRender d s src dst).state.compileCount = s.compileCount + 1 ∧
    (processRender d s src dst).state.itsProgramChanged = false ∧
    (processRender d s src dst).state.itsProgram = some (s.itsVshader, s.itsFshader) := by
  rcases hf : srcFormatOf src with _ | fmt
  · rw [processRender, hf] at hok
    exact absurd hok (by simp)
  · rw [processRender, hf] at hok ⊢
    dsimp only at hok ⊢
    rw [if_pos (by exact h)] at hok ⊢
    by_cases hc : d.compileOk s.itsVshader s.itsFshader = true
    · rw [if_pos hc] at hok ⊢
      rw [processDraw_state]
      exact ⟨rfl, rfl, rfl⟩
    · rw [if_neg hc] at hok
      exact absurd hok (by simp)

theorem process_eq_processRender (d : Driver) (s : FilterState) (src dst : Mat)
    (hd : s.displayInit = true) (hw : dst.cols = s.itsRenderWidth)
    (hh : dst.rows = s.itsRenderHeight) (ht : dstTypeOf dst = some s.itsRenderType) :
    process d s src dst = processRender d s src dst := by
  rw [process, if_pos hd, if_pos ⟨hw, hh, ht⟩]

theorem process_contract (d : Driver) (s : FilterState) (src dst : Mat)
    (hd : s.displayInit = true)
    (hmis : ¬(dst.cols = s.itsRenderWidth ∧ dst.rows = s.itsRenderHeight ∧
              dstTypeOf dst = some s.itsRenderType)) :
    process d s src dst = ⟨s, dst, some Err.ContractViolation, []⟩ := by
  rw [process, if_pos hd, if_neg hmis]

theorem process_uninit (d : Driver) (s : FilterState) (src dst : Mat) (t : RenderType)
    (hd : s.displayInit = false) (ht : dstTypeOf dst = some t) :
    process d s src dst = processRender d (initDisplay s dst t) src dst := by
  rw [process, if_neg (by simp [hd]), ht]

theorem process_uninit_bad (d : Driver) (s : FilterState) (src dst : Mat)
    (hd : s.displayInit = false) (ht : dstTypeOf dst = none) :
    process d s src dst = ⟨s, dst, some Err.UnsupportedFormat, []⟩ := by
  rw [process, if_neg (by simp [hd]), ht]

theorem process_params (d : Driver) (s : FilterState) (src dst : Mat) :
    (process d s src dst).state.itsProgramParams = s.itsProgramParams := by
  rw [process]
  by_cases hd : s.displayInit = true
  · rw [if_pos hd]
    by_cases hm : dst.cols = s.itsRenderWidth ∧ dst.rows = s.itsRenderHeight ∧
        dstTypeOf dst = some s.itsRenderType
    · rw [if_pos hm]
      exact (processRender_preserved d s src dst).1
    · rw [if_neg hm]
  · rw [if_neg hd]
    rcases ht : dstTypeOf dst with _ | t
    · rfl
    · exact (processRender_preserved d (initDisplay s dst t) src dst).1

theorem process_not_dirty (d : Driver) (s : FilterState) (src dst : Mat)
    (h : s.itsProgramChanged = false) :
    (process d s src dst).state.compileCount = s.compileCount ∧
    (process d s src dst).state.itsProgramChanged = false := by
  rw [process]
  by_cases hd : s.displayInit = true
  · rw [if_pos hd]
    by_cases hm : dst.cols = s.itsRenderWidth ∧ dst.rows = s.itsRenderHeight ∧
        dstTypeOf dst = some s.itsRenderType
    · rw [if_pos hm]
      exact processRender_not_dirty d s src dst h
    · rw [if_neg hm]
      exact ⟨rfl, h⟩
  · rw [if_neg hd]
    rcases ht : dstTypeOf dst with _ | t
    · exact ⟨rfl, h⟩
    · exact processRender_not_dirty d (initDisplay s dst t) src dst h

theorem process_preserves_of_init (d : Driver) (s : FilterState) (src dst : Mat)
    (hd : s.displayInit = true) :
    (process d s src dst).state.displayInit = true ∧
    (process d s src dst).state.initCount = s.initCount ∧
    (process d s src dst).state.itsRenderWidth = s.itsRenderWidth ∧
    (process d s src dst).state.itsRenderHeight = s.itsRenderHeight ∧
    (process d s src dst).state.itsRenderType = s.itsRenderType := by
  rw [process, if_pos hd]
  by_cases hm : dst.cols = s.itsRenderWidth ∧ dst.rows = s.itsRenderHeight ∧
      dstTypeOf dst = some s.itsRenderType
  · rw [if_pos hm]
    obtain ⟨_, h2, h3, h4, h5, h6⟩ := processRender_preserved d s src dst
    exact ⟨h2.trans hd, h3, h4, h5, h6⟩
  · rw [if_neg hm]
    exact ⟨hd, rfl, rfl, rfl, rfl⟩

theorem process_uninit_ok (d : Driver) (s : FilterState) (src dst : Mat)
    (hd : s.displayInit = false)
    (hok : (process d s src dst).err = none) :
    (process d s src dst).state.initCount = s.initCount + 1 ∧
    (process d s src dst).state.displayInit = true ∧
    (process d s src dst).state.itsRenderWidth = dst.cols ∧
    (process d s src dst).state.itsRenderHeight = dst.rows ∧
    dstTypeOf dst = some (process d s src dst).state.itsRenderType := by
  rcases ht : dstTypeOf dst with _ | t
  · rw [process_uninit_bad d s src dst hd ht] at hok
    exact absurd hok (by simp)
  · rw [process_uninit d s src dst t hd ht] at hok ⊢
    obtain ⟨_, h2, h3, h4, h5, h6⟩ := processRender_preserved d (initDisplay s dst t) src dst
    refine ⟨h3.trans rfl, h2.trans rfl, h4.trans rfl, h5.trans rfl, ?_⟩
    rw [h6]
    rfl

theorem runSeq_initCount (d : Driver) :
    ∀ (l : List (Mat × Mat)) (s : FilterState), s.displayInit = true →
      (runSeq d s l).initCount = s.initCount ∧ (runSeq d s l).displayInit = true ∧
      (runSeq d s l).itsRenderWidth = s.itsRenderWidth ∧
      (runSeq d s l).itsRenderHeight = s.itsRenderHeight ∧
      (runSeq d s l).itsRenderType = s.itsRenderType := by
  intro l
  induction l with
  | nil => intro s hd; exact ⟨rfl, hd, rfl, rfl, rfl⟩
  | cons hd t ih =>
    intro s hs
    obtain ⟨src, dst⟩ := hd
    obtain ⟨h1, h2, h3, h4, h5⟩ := process_preserves_of_init d s src dst hs
    rw [runSeq]
    obtain ⟨g1, g2, g3, g4, g5⟩ := ih (process d s src dst).state h1
    exact ⟨g1.trans h2, g2, g3.trans h3, g4.trans h4, g5.trans h5⟩

theorem runSeq_compileCount (d : Driver) :
    ∀ (l : List (Mat × Mat)) (s : FilterState), s.itsProgramChanged = false →
      (runSeq d s l).compileCount = s.compileCount ∧
      (runSeq d s l).itsProgramChanged = false := by
  intro l
  induction l with
  | nil => intro s h; exact ⟨rfl, h⟩
  | cons hd t ih =>
    intro s hs
    obtain ⟨src, dst⟩ := hd
    obtain ⟨h1, h2⟩ := process_not_dirty d s src dst hs
    rw [runSeq]
    obtain ⟨g1, g2⟩ := ih (process d s src dst).state h2
    exact ⟨g1.trans h1, g2⟩

theorem processDraw_result (d : Driver) (s : FilterState) (src dst : Mat)
    (vsh fsh : String) (hp : s.itsProgram = some (vsh, fsh)) :
    processDraw d s src dst =
      ⟨s, { dst with data := drawOutput d s src vsh fsh }, none,
        s.itsProgramParams.filter (appliesTo d vsh fsh)⟩ := by
  rw [processDraw, hp]
  rfl

theorem processDraw_none (d : Driver) (s : FilterState) (src dst : Mat)
    (hp : s.itsProgram = none) :
    processDraw d s src dst = ⟨s, dst, some Err.CompileError, []⟩ := by
  rw [processDraw, hp]

theorem filter_mapInsert (q : String × param → Bool) (k : String) (v : param)
    (hq : ∀ v' : param, q (k, v') = false) :
    ∀ l : List (String × param), (mapInsert k v l).filter q = l.filter q := by
  intro l
  induction l with
  | nil => simp [mapInsert, hq v]
  | cons hd t ih =>
    obtain ⟨k1, v1⟩ := hd
    by_cases hlt : k < k1
    · simp [mapInsert, hlt, List.filter_cons, hq v]
    · by_cases heq : k = k1
      · subst heq
        simp [mapInsert, hlt, List.filter_cons, hq v, hq v1]
      · simp [mapInsert, hlt, heq, List.filter_cons, ih]

theorem srcFormatOf_one (src : Mat) (h : src.channels = 1) :
    srcFormatOf src = some TexFormat.Luminance := by
  simp [srcFormatOf, h]

theorem srcFormatOf_four (src : Mat) (h : src.channels = 4) :
    srcFormatOf src = some TexFormat.RGBA := by
  simp [srcFormatOf, h]

theorem srcFormatOf_none (src : Mat) (h1 : src.channels ≠ 1) (h4 : src.channels ≠ 4) :
    srcFormatOf src = none := by
  simp [srcFormatOf, h1, h4]

theorem srcFormatOf_some_channels (src : Mat) (fmt : TexFormat)
    (h : srcFormatOf src = some fmt) : src.channels = 1 ∨ src.channels = 4 := by
  by_cases h1 : src.channels = 1
  · exact Or.inl h1
  · by_cases h4 : src.channels = 4
    · exact Or.inr h4
    · rw [srcFormatOf_none src h1 h4] at h
      exact absurd h (by simp)

theorem processRender_src_bad (d : Driver) (s : FilterState) (src dst : Mat)
    (h : srcFormatOf src = none) :
    processRender d s src dst = ⟨s, dst, some Err.UnsupportedFormat, []⟩ := by
  rw [processRender, h]

theorem processRender_ok_of (d : Driver) (s : FilterState) (src dst : Mat) (fmt : TexFormat)
    (hsf : srcFormatOf src = some fmt) (hc : s.itsProgramChanged = true)
    (hk : d.compileOk s.itsVshader s.itsFshader = true) :
    (processRender d s src dst).err = none := by
  rw [processRender, hsf]
  dsimp only
  rw [if_pos hc, if_pos hk]
  rfl

theorem process_dirty_ok (d : Driver) (s : FilterState) (src dst : Mat)
    (h : s.itsProgramChanged = true)
    (hok : (process d s src dst).err = none) :
    (process d s src dst).state.compileCount = s.compileCount + 1 ∧
    (process d s src dst).state.itsProgramChanged = false ∧
    (process d s src dst).state.itsProgram = some (s.itsVshader, s.itsFshader) := by
  by_cases hd : s.displayInit = true
  · by_cases hm : dst.cols = s.itsRenderWidth ∧ dst.rows = s.itsRenderHeight ∧
        dstTypeOf dst = some s.itsRenderType
    · rw [process_eq_processRender d s src dst hd hm.1 hm.2.1 hm.2.2] at hok ⊢
      exact processRender_dirty_ok d s src dst h hok
    · rw [process_contract d s src dst hd hm] at hok
      simp at hok
  · have hd0 : s.displayInit = false := by simpa using hd
    rcases ht : dstTypeOf dst with _ | t
    · rw [process_uninit_bad d s src dst hd0 ht] at hok
      simp at hok
    · rw [process_uninit d s src dst t hd0 ht] at hok ⊢
      exact processRender_dirty_ok d (initDisplay s dst t) src dst h hok

theorem processRender_applied (d : Driver) (s : FilterState) (src dst : Mat)
    (vsh fsh : String)
    (hok : (processRender d s src dst).err = none)
    (hp : (processRender d s src dst).state.itsProgram = some (vsh, fsh)) :
    (processRender d s src dst).applied =
      s.itsProgramParams.filter (appliesTo d vsh fsh) := by
  rcases hsf : srcFormatOf src with _ | fmt
  · rw [processRender, hsf] at hok
    exact absurd hok (by simp)
  · rw [processRender, hsf] at hok hp ⊢
    dsimp only at hok hp ⊢
    by_cases hc : s.itsProgramChanged = true
    · rw [if_pos hc] at hok hp ⊢
      by_cases hk : d.compileOk s.itsVshader s.itsFshader = true
      · rw [if_pos hk] at hok hp ⊢
        rw [processDraw] at hp ⊢
        dsimp only at hp ⊢
        simp only [Option.some.injEq, Prod.mk.injEq] at hp
        obtain ⟨h1, h2⟩ := hp
        rw [h1, h2]
      · rw [if_neg hk] at hok
        exact absurd hok (by simp)
    · rw [if_neg hc] at hp ⊢
      rw [processDraw_state] at hp
      dsimp only at hp
      rw [processDraw]
      dsimp only
      rw [hp]

theorem process_applied (d : Driver) (s : FilterState) (src dst : Mat)
    (vsh fsh : String)
    (hok : (process d s src dst).err = none)
    (hp : (process d s src dst).state.itsProgram = some (vsh, fsh)) :
    (process d s src dst).applied =
      s.itsProgramParams.filter (appliesTo d vsh fsh) := by
  by_cases hd : s.displayInit = true
  · by_cases hm : dst.cols = s.itsRenderWidth ∧ dst.rows = s.itsRenderHeight ∧
        dstTypeOf dst = some s.itsRenderType
    · rw [process_eq_processRender d s src dst hd hm.1 hm.2.1 hm.2.2] at hok hp ⊢
      exact processRender_applied d s src dst vsh fsh hok hp
    · rw [process_contract d s src dst hd hm] at hok
      simp at hok
  · have hd0 : s.displayInit = false := by simpa using hd
    rcases ht : dstTypeOf dst with _ | t
    · rw [process_uninit_bad d s src dst hd0 ht] at hok
      simp at hok
    · rw [process_uninit d s src dst t hd0 ht] at hok hp ⊢
      exact processRender_applied d (initDisplay s dst t) src dst vsh fsh hok hp

theorem processRender_congr_clean (d : Driver) (s : FilterState)
    (l' : List (String × param)) (src dst : Mat) (vsh fsh : String)
    (hc : s.itsProgramChanged = false) (hp : s.itsProgram = some (vsh, fsh))
    (hf : l'.filter (appliesTo d vsh fsh) =
          s.itsProgramParams.filter (appliesTo d vsh fsh)) :
    (processRender d { s with itsProgramParams := l' } src dst).err =
      (processRender d s src dst).err ∧
    (processRender d { s with itsProgramParams := l' } src dst).dst =
      (processRender d s src dst).dst := by
  rw [processRender, processRender]
  rcases hsf : srcFormatOf src with _ | fmt
  · exact ⟨rfl, rfl⟩
  · dsimp only
    have hcc : ¬ (s.itsProgramChanged = true) := by simp [hc]
    rw [if_neg hcc, if_neg hcc]
    rw [processDraw, processDraw]
    dsimp only
    rw [hp]
    dsimp only
    rw [hf]
    exact ⟨rfl, rfl⟩

theorem processRender_congr_dirty (d : Driver) (s : FilterState)
    (l' : List (String × param)) (src dst : Mat)
    (hc : s.itsProgramChanged = true)
    (hf : l'.filter (appliesTo d s.itsVshader s.itsFshader) =
          s.itsProgramParams.filter (appliesTo d s.itsVshader s.itsFshader)) :
    (processRender d { s with itsProgramParams := l' } src dst).err =
      (processRender d s src dst).err ∧
    (processRender d { s with itsProgramParams := l' } src dst).dst =
      (processRender d s src dst).dst := by
  rw [processRender, processRender]
  rcases hsf : srcFormatOf src with _ | fmt
  · exact ⟨rfl, rfl⟩
  · dsimp only
    rw [if_pos hc, if_pos hc]
    by_cases hk : d.compileOk s.itsVshader s.itsFshader = true
    · rw [if_pos hk, if_pos hk]
      rw [processDraw, processDraw]
      dsimp only
      rw [hf]
      exact ⟨rfl, rfl⟩
    · rw [if_neg hk, if_neg hk]
      exact ⟨rfl, rfl⟩

theorem process_congr_clean (d : Driver) (s : FilterState)
    (l' : List (String × param)) (src dst : Mat) (vsh fsh : String)
    (hc : s.itsProgramChanged = false) (hp : s.itsProgram = some (vsh, fsh))
    (hf : l'.filter (appliesTo d vsh fsh) =
          s.itsProgramParams.filter (appliesTo d vsh fsh)) :
    (process d { s with itsProgramParams := l' } src dst).err =
      (process d s src dst).err ∧
    (process d { s with itsProgramParams := l' } src dst).dst =
      (process d s src dst).dst := by
  by_cases hd : s.displayInit = true
  · by_cases hm : dst.cols = s.itsRenderWidth ∧ dst.rows = s.itsRenderHeight ∧
        dstTypeOf dst = some s.itsRenderType
    · rw [process_eq_processRender d s src dst hd hm.1 hm.2.1 hm.2.2,
          process_eq_processRender d { s with itsProgramParams := l' } src dst hd
            hm.1 hm.2.1 hm.2.2]
      exact processRender_congr_clean d s l' src dst vsh fsh hc hp hf
    · rw [process_contract d s src dst hd hm,
          process_contract d { s with itsProgramParams := l' } src dst hd hm]
      exact ⟨rfl, rfl⟩
  · have hd0 : s.displayInit = false := by simpa using hd
    rcases ht : dstTypeOf dst with _ | t
    · rw [process_uninit_bad d s src dst hd0 ht,
          process_uninit_bad d { s with itsProgramParams := l' } src dst hd0 ht]
      exact ⟨rfl, rfl⟩
    · rw [process_uninit d s src dst t hd0 ht,
          process_uninit d { s with itsProgramParams := l' } src dst t hd0 ht]
      exact processRender_congr_clean d (initDisplay s dst t) l' src dst vsh fsh hc hp hf

theorem process_congr_dirty (d : Driver) (s : FilterState)
    (l' : List (String × param)) (src dst : Mat)
    (hc : s.itsProgramChanged = true)
    (hf : l'.filter (appliesTo d s.itsVshader s.itsFshader) =
          s.itsProgramParams.filter (appliesTo d s.itsVshader s.itsFshader)) :
    (process d { s with itsProgramParams := l' } src dst).err =
      (process d s src dst).err ∧
    (process d { s with itsProgramParams := l' } src dst).dst =
      (process d s src dst).dst := by
  by_cases hd : s.displayInit = true
  · by_cases hm : dst.cols = s.itsRenderWidth ∧ dst.rows = s.itsRenderHeight ∧
        dstTypeOf dst = some s.itsRenderType
    · rw [process_eq_processRender d s src dst hd hm.1 hm.2.1 hm.2.2,
          process_eq_processRender d { s with itsProgramParams := l' } src dst hd
            hm.1 hm.2.1 hm.2.2]
      exact processRender_congr_dirty d s l' src dst hc hf
    · rw [process_contract d s src dst hd hm,
          process_contract d { s with itsProgramParams := l' } src dst hd hm]
      exact ⟨rfl, rfl⟩
  · have hd0 : s.displayInit = false := by simpa using hd
    rcases ht : dstTypeOf dst with _ | t
    · rw [process_uninit_bad d s src dst hd0 ht,
          process_uninit_bad d { s with itsProgramParams := l' } src dst hd0 ht]
      exact ⟨rfl, rfl⟩
    · rw [process_uninit d s src dst t hd0 ht,
          process_uninit d { s with itsProgramParams := l' } src dst t hd0 ht]
      exact processRender_congr_dirty d (initDisplay s dst t) l' src dst hc hf

theorem floatRound_exact (v : Int) (h : v.natAbs ≤ 2 ^ 24) : floatRound v = v := by
  rw [floatRound]
  exact if_pos h

/-- C1: for every `setProgram` call and every N ≥ 1, a run of N subsequent
`process` calls that all succeed performs exactly one shader compile/link, on
the first of those calls, regardless of N: `setProgram` sets the dirty flag,
the next render pass consults and clears it, and the compile counter is not
incremented again while the (vertex, fragment) pair is unchanged. -/
theorem c1_compile_once (d : Driver) (s : FilterState) (v f : String)
    (src dst : Mat) (rest : List (Mat × Mat))
    (hok : seqOk d (setProgram s v f) ((src, dst) :: rest) = true) :
    (setProgram s v f).itsProgramChanged = true ∧
    (process d (setProgram s v f) src dst).state.itsProgramChanged = false ∧
    (process d (setProgram s v f) src dst).state.compileCount = s.compileCount + 1 ∧
    (runSeq d (setProgram s v f) ((src, dst) :: rest)).compileCount =
      s.compileCount + 1 := by
  rw [seqOk, Bool.and_eq_true, Option.isNone_iff_eq_none] at hok
  obtain ⟨h1, _⟩ := hok
  obtain ⟨hcc, hfl, _⟩ := process_dirty_ok d (setProgram s v f) src dst rfl h1
  refine ⟨rfl, hfl, hcc, ?_⟩
  rw [runSeq]
  rw [(runSeq_compileCount d rest (process d (setProgram s v f) src dst).state hfl).1]
  exact hcc

theorem c1_compile_once_witness :
    (setProgram initFilterState "v" "f").itsProgramChanged = true ∧
    (process testDriver (setProgram initFilterState "v" "f") srcGrey dst565).state.itsProgramChanged = false ∧
    (process testDriver (setProgram initFilterState "v" "f") srcGrey dst565).state.compileCount = initFilterState.compileCount + 1 ∧
    (runSeq testDriver (setProgram initFilterState "v" "f") [(srcGrey, dst565)]).compileCount = initFilterState.compileCount + 1 :=
  c1_compile_once testDriver initFilterState "v" "f" srcGrey dst565 [] (by decide)

/-- C2: once the render target has been configured, a `process` call whose
destination image does not match the configured size or encoding surfaces a
`ContractViolation` error and the destination buffer is returned bitwise
unchanged (nothing at all is written to it). -/
theorem c2_contract_violation (d : Driver) (s : FilterState) (src dst : Mat)
    (hd : s.displayInit = true)
    (hmis : ¬(dst.cols = s.itsRenderWidth ∧ dst.rows = s.itsRenderHeight ∧
              dstTypeOf dst = some s.itsRenderType)) :
    (process d s src dst).err = some Err.ContractViolation ∧
    (process d s src dst).dst = dst := by
  rw [process_contract d s src dst hd hmis]
  exact ⟨rfl, rfl⟩

theorem c2_contract_violation_witness :
    (process testDriver readyState srcGrey ⟨7, 9, 2, []⟩).err =
      some Err.ContractViolation ∧
    (process testDriver readyState srcGrey ⟨7, 9, 2, []⟩).dst = ⟨7, 9, 2, []⟩ :=
  c2_contract_violation testDriver readyState srcGrey ⟨7, 9, 2, []⟩ (by decide) (by decide)

/-- C3: `setProgram` stores the two shader source strings, sets the dirty
flag, and empties the parameter store completely; it performs no GPU/driver
work (it does not even receive the driver), and every other piece of pipeline
state — compiled program handle, source texture, display/context, render
target and the ghost compile/init counters — is unchanged by the call. -/
theorem c3_setProgram_pure (s : FilterState) (v f : String) :
    (setProgram s v f).itsVshader = v ∧
    (setProgram s v f).itsFshader = f ∧
    (setProgram s v f).itsProgramChanged = true ∧
    (setProgram s v f).itsProgramParams = [] ∧
    (setProgram s v f).itsProgram = s.itsProgram ∧
    (setProgram s v f).itsSrcTex = s.itsSrcTex ∧
    (setProgram s v f).displayInit = s.displayInit ∧
    (setProgram s v f).itsRenderWidth = s.itsRenderWidth ∧
    (setProgram s v f).itsRenderHeight = s.itsRenderHeight ∧
    (setProgram s v f).itsRenderType = s.itsRenderType ∧
    (setProgram s v f).compileCount = s.compileCount ∧
    (setProgram s v f).initCount = s.initCount :=
  ⟨rfl, rfl, rfl, rfl, rfl, rfl, rfl, rfl, rfl, rfl, rfl, rfl⟩

/-- C4: a parameter stored under name n persists in the store and is reapplied
on every subsequent successful `process` call (the uniforms uploaded during a
pass are exactly the stored entries whose name resolves in the bound program,
so a stored, resolvable entry is uploaded every pass); `process` itself never
removes or alters stored parameters; another `setParam` with the same name
overwrites the entry (last write wins); and `setProgram` clears the whole
store. -/
theorem c4_param_persistence :
    (∀ (d : Driver) (s : FilterState) (src dst : Mat),
      (process d s src dst).state.itsProgramParams = s.itsProgramParams) ∧
    (∀ (d : Driver) (s : FilterState) (src dst : Mat) (vsh fsh : String),
      (process d s src dst).err = none →
      (process d s src dst).state.itsProgram = some (vsh, fsh) →
      (process d s src dst).applied =
        s.itsProgramParams.filter (appliesTo d vsh fsh)) ∧
    (∀ (d : Driver) (s : FilterState) (src dst : Mat) (vsh fsh n : String)
       (p : param),
      (process d s src dst).err = none →
      (process d s src dst).state.itsProgram = some (vsh, fsh) →
      mapFind n s.itsProgramParams = some p →
      appliesTo d vsh fsh (n, p) = true →
      (n, p) ∈ (process d s src dst).applied) ∧
    (∀ (s : FilterState) (n : String) (v1 v2 : ℚ),
      mapFind n (setProgramParam2f s n v1 v2).itsProgramParams =
        some ⟨paramtype.F2, v1, v2⟩) ∧
    (∀ (s : FilterState) (v f : String),
      (setProgram s v f).itsProgramParams = []) := by
  refine ⟨process_params, process_applied, ?_, ?_, fun s v f => rfl⟩
  · intro d s src dst vsh fsh n p hok hp hfind happ
    rw [process_applied d s src dst vsh fsh hok hp]
    exact List.mem_filter.mpr ⟨mapFind_mem hfind, happ⟩
  · intro s n v1 v2
    rw [setProgramParam2f]
    dsimp only
    rw [mapFind_mapInsert, if_pos rfl]

theorem c4_param_persistence_witness :
    (process testDriver readyState srcGrey dst565).applied =
      readyState.itsProgramParams.filter (appliesTo testDriver "v" "f") :=
  c4_param_persistence.2.1 testDriver readyState srcGrey dst565 "v" "f"
    (by decide) (by decide)

/-- C5: a parameter stored under a name that is absent from the bound shader
program's declared uniforms (its location lookup yields none) is silently
skipped when the store is applied during `process`: the call surfaces exactly
the same error (none if the base run succeeds) and produces exactly the same
destination image as the run without that parameter set — stated both for a
clean (already compiled) program and for a dirty one about to be compiled. -/
theorem c5_unknown_uniform_skipped :
    (∀ (d : Driver) (s : FilterState) (src dst : Mat) (name : String) (p : param)
       (vsh fsh : String),
      s.itsProgramChanged = false → s.itsProgram = some (vsh, fsh) →
      d.uniformLoc vsh fsh name = none →
      (process d { s with itsProgramParams := mapInsert name p s.itsProgramParams } src dst).err =
        (process d s src dst).err ∧
      (process d { s with itsProgramParams := mapInsert name p s.itsProgramParams } src dst).dst =
        (process d s src dst).dst) ∧
    (∀ (d : Driver) (s : FilterState) (src dst : Mat) (name : String) (p : param),
      s.itsProgramChanged = true →
      d.uniformLoc s.itsVshader s.itsFshader name = none →
      (process d { s with itsProgramParams := mapInsert name p s.itsProgramParams } src dst).err =
        (process d s src dst).err ∧
      (process d { s with itsProgramParams := mapInsert name p s.itsProgramParams } src dst).dst =
        (process d s src dst).dst) := by
  constructor
  · intro d s src dst name p vsh fsh hc hp hu
    refine process_congr_clean d s _ src dst vsh fsh hc hp ?_
    exact filter_mapInsert _ name p (fun v' => by simp [appliesTo, hu])
      s.itsProgramParams
  · intro d s src dst name p hc hu
    refine process_congr_dirty d s _ src dst hc ?_
    exact filter_mapInsert _ name p (fun v' => by simp [appliesTo, hu])
      s.itsProgramParams

theorem c5_unknown_uniform_skipped_witness :
    (process testDriver { readyState with itsProgramParams := mapInsert "u" ⟨paramtype.F1, 1, 0⟩ readyState.itsProgramParams } srcGrey dst565).err =
      (process testDriver readyState srcGrey dst565).err ∧
    (process testDriver { readyState with itsProgramParams := mapInsert "u" ⟨paramtype.F1, 1, 0⟩ readyState.itsProgramParams } srcGrey dst565).dst =
      (process testDriver readyState srcGrey dst565).dst :=
  c5_unknown_uniform_skipped.1 testDriver readyState srcGrey dst565 "u"
    ⟨paramtype.F1, 1, 0⟩ "v" "f" (by decide) (by decide) rfl

/-- C6: `process` accepts the source image exactly when it has 1 channel
(uploaded as a luminance texture) or 4 channels (uploaded as RGBA); with the
destination matching the configured target and compilation succeeding, the
call succeeds if and only if the source has 1 or 4 channels, and any other
channel count surfaces an `UnsupportedFormat` error. -/
theorem c6_src_format (d : Driver) (s : FilterState) (src dst : Mat)
    (hd : s.displayInit = true) (hw : dst.cols = s.itsRenderWidth)
    (hh : dst.rows = s.itsRenderHeight)
    (ht : dstTypeOf dst = some s.itsRenderType) :
    (src.channels = 1 → srcFormatOf src = some TexFormat.Luminance) ∧
    (src.channels = 4 → srcFormatOf src = some TexFormat.RGBA) ∧
    (src.channels ≠ 1 → src.channels ≠ 4 →
      (process d s src dst).err = some Err.UnsupportedFormat) ∧
    (s.itsProgramChanged = true → d.compileOk s.itsVshader s.itsFshader = true →
      ((process d s src dst).err = none ↔
        (src.channels = 1 ∨ src.channels = 4))) := by
  refine ⟨srcFormatOf_one src, srcFormatOf_four src, ?_, ?_⟩
  · intro h1 h4
    rw [process_eq_processRender d s src dst hd hw hh ht,
        processRender_src_bad d s src dst (srcFormatOf_none src h1 h4)]
  · intro hdirty hcomp
    rw [process_eq_processRender d s src dst hd hw hh ht]
    constructor
    · intro hok
      obtain ⟨fmt, hf⟩ := processRender_err_none d s src dst hok
      exact srcFormatOf_some_channels src fmt hf
    · intro hch
      rcases hch with h1 | h4
      · exact processRender_ok_of d s src dst _ (srcFormatOf_one src h1) hdirty hcomp
      · exact processRender_ok_of d s src dst _ (srcFormatOf_four src h4) hdirty hcomp

theorem c6_src_format_witness :
    (process testDriver readyState ⟨1, 1, 3, [0, 0, 0]⟩ dst565).err =
      some Err.UnsupportedFormat :=
  (c6_src_format testDriver readyState ⟨1, 1, 3, [0, 0, 0]⟩ dst565
    (by decide) (by decide) (by decide) (by decide)).2.2.1 (by decide) (by decide)

/-- C7: graphics initialization is lazy, once-only and idempotent: the
constructor state owns no GPU entity (no display, no program, no texture, init
counter zero); the first successful `process` call from an uninitialized state
performs the one initialization, sizing the render target to the destination
image; every `process` call on an initialized pipeline leaves the
initialization counter, the display flag and the render-target configuration
untouched; and over any subsequent call sequence the init counter never moves
again. -/
theorem c7_lazy_init :
    (initFilterState.initCount = 0 ∧ initFilterState.displayInit = false ∧
     initFilterState.itsProgram = none ∧ initFilterState.itsSrcTex = none) ∧
    (∀ (d : Driver) (s : FilterState) (src dst : Mat), s.displayInit = false →
      (process d s src dst).err = none →
      (process d s src dst).state.initCount = s.initCount + 1 ∧
      (process d s src dst).state.displayInit = true ∧
      (process d s src dst).state.itsRenderWidth = dst.cols ∧
      (process d s src dst).state.itsRenderHeight = dst.rows) ∧
    (∀ (d : Driver) (s : FilterState) (src dst : Mat), s.displayInit = true →
      (process d s src dst).state.initCount = s.initCount ∧
      (process d s src dst).state.displayInit = true ∧
      (process d s src dst).state.itsRenderWidth = s.itsRenderWidth ∧
      (process d s src dst).state.itsRenderHeight = s.itsRenderHeight ∧
      (process d s src dst).state.itsRenderType = s.itsRenderType) ∧
    (∀ (d : Driver) (s : FilterState) (l : List (Mat × Mat)),
      s.displayInit = true → (runSeq d s l).initCount = s.initCount) := by
  refine ⟨⟨rfl, rfl, rfl, rfl⟩, ?_, ?_, ?_⟩
  · intro d s src dst hd hok
    obtain ⟨h1, h2, h3, h4, _⟩ := process_uninit_ok d s src dst hd hok
    exact ⟨h1, h2, h3, h4⟩
  · intro d s src dst hd
    obtain ⟨h1, h2, h3, h4, h5⟩ := process_preserves_of_init d s src dst hd
    exact ⟨h2, h1, h3, h4, h5⟩
  · intro d s l hd
    exact (runSeq_initCount d l s hd).1

theorem c7_lazy_init_witness :
    (process testDriver dirtyState srcGrey dst565).state.initCount =
      dirtyState.initCount + 1 ∧
    (process testDriver dirtyState srcGrey dst565).state.displayInit = true ∧
    (process testDriver dirtyState srcGrey dst565).state.itsRenderWidth = dst565.cols ∧
    (process testDriver dirtyState srcGrey dst565).state.itsRenderHeight = dst565.rows :=
  c7_lazy_init.2.1 testDriver dirtyState srcGrey dst565 (by decide) (by decide)

/-- C9: the integer parameter setters `setProgramParam1i` / `setProgramParam2i`
store their `int` arguments in the `float val[2]` payload of `struct param`:
for every int argument of magnitude at most 2^24 the stored value is exactly
the argument, while for some int argument of magnitude greater than 2^24 (here
2^24 + 1) the stored value differs from the argument — the int rounds through
the 32-bit float representation. -/
theorem c9_int_param_storage :
    (∀ (s : FilterState) (n : String) (v : Int), v.natAbs ≤ 2 ^ 24 →
      mapFind n (setProgramParam1i s n v).itsProgramParams =
        some ⟨paramtype.I1, (v : ℚ), 0⟩) ∧
    (∀ (s : FilterState) (n : String) (v1 v2 : Int),
      v1.natAbs ≤ 2 ^ 24 → v2.natAbs ≤ 2 ^ 24 →
      mapFind n (setProgramParam2i s n v1 v2).itsProgramParams =
        some ⟨paramtype.I2, (v1 : ℚ), (v2 : ℚ)⟩) ∧
    (∃ v : Int, 2 ^ 24 < v.natAbs ∧
      mapFind "x" (setProgramParam1i initFilterState "x" v).itsProgramParams ≠
        some ⟨paramtype.I1, (v : ℚ), 0⟩) := by
  refine ⟨?_, ?_, ?_⟩
  · intro s n v h
    rw [setProgramParam1i]
    dsimp only
    rw [mapFind_mapInsert, if_pos rfl, floatRound_exact v h]
  · intro s n v1 v2 h1 h2
    rw [setProgramParam2i]
    dsimp only
    rw [mapFind_mapInsert, if_pos rfl, floatRound_exact v1 h1, floatRound_exact v2 h2]
  · refine ⟨2 ^ 24 + 1, by decide, ?_⟩
    rw [setProgramParam1i]
    dsimp only
    rw [mapFind_mapInsert, if_pos rfl]
    have hfr : floatRound (2 ^ 24 + 1) = 2 ^ 24 := by decide
    rw [hfr]
    intro hco
    rw [Option.some.injEq, param.mk.injEq, Int.cast_inj] at hco
    have h2 := hco.2.1
    norm_num at h2

theorem c9_int_param_storage_witness :
    mapFind "k" (setProgramParam1i initFilterState "k" 3).itsProgramParams =
      some ⟨paramtype.I1, ((3 : Int) : ℚ), 0⟩ :=
  c9_int_param_storage.1 initFilterState "k" 3 (by decide)

/-- C10: `setParam` operations on distinct names commute — inserting two
entries with different keys in either order leaves the (sorted, name-keyed)
parameter store in the same state, both at the map level and through the
`setProgramParam2f` setter — and the store is fully determined by the last
value written per name: lookup after insert returns the inserted value at its
key and is unchanged elsewhere, insertion preserves the sorted-map invariant,
and two sorted stores with identical lookups are identical. -/
theorem c10_param_insert_commutes :
    (∀ (k1 k2 : String) (v1 v2 : param) (l : List (String × param)),
      StoreSorted l → k1 ≠ k2 →
      mapInsert k1 v1 (mapInsert k2 v2 l) = mapInsert k2 v2 (mapInsert k1 v1 l)) ∧
    (∀ (k k1 : String) (v : param) (l : List (String × param)),
      mapFind k (mapInsert k1 v l) = if k = k1 then some v else mapFind k l) ∧
    (∀ (k : String) (v : param) (l : List (String × param)),
      StoreSorted l → StoreSorted (mapInsert k v l)) ∧
    (∀ l1 l2 : List (String × param), StoreSorted l1 → StoreSorted l2 →
      (∀ k, mapFind k l1 = mapFind k l2) → l1 = l2) ∧
    (∀ (s : FilterState) (n1 n2 : String) (a1 a2 b1 b2 : ℚ),
      StoreSorted s.itsProgramParams → n1 ≠ n2 →
      setProgramParam2f (setProgramParam2f s n1 a1 a2) n2 b1 b2 =
        setProgramParam2f (setProgramParam2f s n2 b1 b2) n1 a1 a2) := by
  refine ⟨?_, mapFind_mapInsert, storeSorted_mapInsert, storeSorted_ext, ?_⟩
  · intro k1 k2 v1 v2 l hs hne
    exact mapInsert_comm v1 v2 l hs hne
  · intro s n1 n2 a1 a2 b1 b2 hs hne
    simp only [setProgramParam2f]
    rw [@mapInsert_comm n1 n2 ⟨paramtype.F2, a1, a2⟩ ⟨paramtype.F2, b1, b2⟩
        s.itsProgramParams hs hne]

theorem c10_param_insert_commutes_witness :
    mapInsert "a" ⟨paramtype.F1, 1, 0⟩ (mapInsert "b" ⟨paramtype.F1, 2, 0⟩ []) =
      mapInsert "b" ⟨paramtype.F1, 2, 0⟩ (mapInsert "a" ⟨paramtype.F1, 1, 0⟩ []) :=
  c10_param_insert_commutes.1 "a" "b" ⟨paramtype.F1, 1, 0⟩ ⟨paramtype.F1, 2, 0⟩ []
    List.Pairwise.nil (by decide)
